import Mathlib

/-!
Shallow embedding of `src/api/mas-update.ts` (Dynamic MAS Update rule store).

JavaScript strings are modelled as `List Char`.  The regular expressions in
`parsePrompt` are embedded by a small backtracking matcher whose combinators
mirror the regex constructs used there (case-insensitive literals, `\s+`,
optional groups, alternation, greedy character-class captures, leftmost-match
scanning).
-/

namespace MASUpdate

abbrev Str := List Char

/-- The apostrophe character (code point 39). -/
def apos : Char := Char.ofNat 39

/-- JS `String.prototype.toLowerCase` (ASCII behaviour). -/
def lowerStr (s : Str) : Str := s.map Char.toLower

/-- JS `String.prototype.toUpperCase` (ASCII behaviour). -/
def upperStr (s : Str) : Str := s.map Char.toUpper

/-- JS `String.prototype.includes`: substring containment. -/
def strIncludes : Str → Str → Bool
  | [], needle => needle.isEmpty
  | c :: t, needle => needle.isPrefixOf (c :: t) || strIncludes t needle

/-- JS `String.prototype.trim`. -/
def trimStr (l : Str) : Str :=
  ((l.dropWhile Char.isWhitespace).reverse.dropWhile Char.isWhitespace).reverse

/-! ### Backtracking regex matcher

A matcher maps an input to the list of possible remainders, in the priority
order a backtracking regex engine would try them (greedy first). -/

abbrev Matcher := Str → List Str

/-- Strip a literal, comparing case-insensitively (regex `/.../i` literal). -/
def stripLitCI : Str → Str → Option Str
  | [], l => some l
  | _ :: _, [] => none
  | p :: ps, c :: cs => if p.toLower = c.toLower then stripLitCI ps cs else none

/-- Case-insensitive literal. -/
def mLit (lit : Str) : Matcher := fun l =>
  match stripLitCI lit l with
  | some r => [r]
  | none => []

/-- Whitespace-plus: one or more whitespace characters, greedy (longest first). -/
def mWs : Matcher := fun l =>
  let k := (l.takeWhile Char.isWhitespace).length
  (List.range k).map fun i => l.drop (k - i)

/-- A single character from a class. -/
def mChar (cls : Char → Bool) : Matcher := fun l =>
  match l with
  | [] => []
  | c :: t => if cls c then [t] else []

/-- Sequencing of matchers. -/
def mSeq (m₁ m₂ : Matcher) : Matcher := fun l => (m₁ l).flatMap m₂

/-- Alternation `x|y` (left preferred). -/
def mAlt (m₁ m₂ : Matcher) : Matcher := fun l => m₁ l ++ m₂ l

/-- Greedy option `(...)?`. -/
def mOpt (m : Matcher) : Matcher := fun l => m l ++ [l]

/-- The empty matcher. -/
def mEps : Matcher := fun l => [l]

/-- Greedy capture `([c]+)` of a character class: candidate
`(capture, remainder)` pairs, longest capture first, capture nonempty. -/
def mCapClass (cls : Char → Bool) (l : Str) : List (Str × Str) :=
  let k := (l.takeWhile cls).length
  (List.range k).map fun i => (l.take (k - i), l.drop (k - i))

/-- Candidate captures (priority order) for pattern `pre ([cls]+) post`
anchored at the start of `l`. -/
def capturesAt (pre : Matcher) (cls : Char → Bool) (post : Matcher) (l : Str) : List Str :=
  (pre l).flatMap fun r₁ =>
    (mCapClass cls r₁).filterMap fun pr =>
      if (post pr.2).isEmpty then none else some pr.1

/-- Leftmost-match semantics of JS `String.prototype.match`: scan start
positions left to right, return the first successful capture. -/
def findMatch (f : Str → List Str) : Str → Option Str
  | [] => (f []).head?
  | c :: t =>
    match (f (c :: t)).head? with
    | some cap => some cap
    | none => findMatch f t

/-! ### The four regexes of `parsePrompt` -/

/-- Comma test for the `[^,]+` capture class. -/
def notComma (c : Char) : Bool := c != ','

/-- Building block for the verb alternatives: stem, optional letter s, whitespace, literal to. -/
def vTo (stem : Str) : Matcher :=
  mSeq (mAlt (mLit (stem ++ ['s'])) (mLit stem)) (mSeq mWs (mLit "to".data))

/-- The verb alternation group of the first trigger pattern. -/
def verbGroup : Matcher :=
  mAlt (vTo "want".data) (mAlt (vTo "ask".data) (vTo "request".data))

/-- Optional article plus literal customer plus whitespace. -/
def optACust : Matcher :=
  mSeq (mOpt (mSeq (mLit "a".data) mWs)) (mSeq (mLit "customer".data) mWs)

/-- Trigger pattern 1: literal if, whitespace, optional article, customer,
the verb group, whitespace, then a captured run of non-comma characters. -/
def matchPat1 (p : Str) : Option Str :=
  findMatch (capturesAt
    (mSeq (mLit "if".data) (mSeq mWs (mSeq optACust (mSeq verbGroup mWs))))
    notComma mEps) p

/-- Trigger pattern 2: literal when, whitespace, optional article, customer,
whitespace, then a captured run of non-comma characters. -/
def matchPat2 (p : Str) : Option Str :=
  findMatch (capturesAt
    (mSeq (mLit "when".data) (mSeq mWs optACust))
    notComma mEps) p

/-- Trigger pattern 3: literal for, whitespace, a captured run of non-comma
characters, whitespace, literal request, optional letter s. -/
def matchPat3 (p : Str) : Option Str :=
  findMatch (capturesAt
    (mSeq (mLit "for".data) mWs)
    notComma
    (mSeq mWs (mSeq (mLit "request".data) (mOpt (mLit ['s']))))) p

/-- Quote character class: apostrophe or double quote. -/
def isQuote (c : Char) : Bool := c == apos || c == '"'

/-- Tag capture class: letters and underscore (class A-Z underscore with the
case-insensitive flag). -/
def tagChar (c : Char) : Bool := c.isAlpha || c == '_'

/-- The tag regex of `parsePrompt`: literal `mark`, whitespace, an optional
`as` plus whitespace, an optional quote, a captured run of `[A-Z_]` letters
under the `/i` flag, and an optional closing quote. -/
def matchMarkTag (p : Str) : Option Str :=
  findMatch (capturesAt
    (mSeq (mLit "mark".data) (mSeq mWs (mSeq (mOpt (mSeq (mLit "as".data) mWs))
      (mOpt (mChar isQuote)))))
    tagChar
    (mOpt (mChar isQuote))) p

/-! ### JS global replace-by-empty-string and `split` -/

/-- Try the alternatives in order at the head of `l` (regex alternation order). -/
def firstAltStrip (alts : List Str) (l : Str) : Option Str :=
  match alts with
  | [] => none
  | a :: rest =>
    match stripLitCI a l with
    | some r => some r
    | none => firstAltStrip rest l

/-- Fuel-indexed worker for the global replace-by-empty. -/
def replaceAllF (alts : List Str) : Nat → Str → Str
  | 0, l => l
  | _ + 1, [] => []
  | fuel + 1, c :: t =>
    match firstAltStrip alts (c :: t) with
    | some r => replaceAllF alts fuel r
    | none => c :: replaceAllF alts fuel t

/-- JS global replace of an alternation regex by the empty string: scan left
to right, at each position delete the first alternative that matches, else
keep the character.  Every alternative is nonempty, so `l.length` fuel always
suffices. -/
def replaceAll (alts : List Str) (l : Str) : Str := replaceAllF alts l.length l

/-- Worker for JS-style `split` on a separator class: `some cur` is the token
being accumulated (reversed), `none` means we are inside a separator run. -/
def splitSepGo (isSep : Char → Bool) : Option Str → Str → List Str
  | some cur, [] => [cur.reverse]
  | none, [] => [[]]
  | some cur, c :: rest =>
    if isSep c then cur.reverse :: splitSepGo isSep none rest
    else splitSepGo isSep (some (c :: cur)) rest
  | none, c :: rest =>
    if isSep c then splitSepGo isSep none rest
    else splitSepGo isSep (some [c]) rest

/-- JS `str.split(/[sep]+/)`: split on maximal separator runs; a leading or
trailing run contributes an empty token, and `"".split` gives `[""]`. -/
def splitSep (isSep : Char → Bool) (l : Str) : List Str := splitSepGo isSep (some []) l

/-- Lowercase-letter test: the fallback tokenizer splits on runs of
characters outside this class. -/
def isLowerAZ (c : Char) : Bool := decide (97 ≤ c.toNat) && decide (c.toNat ≤ 122)

/-! ### Data model (`MASUpdateRule`) -/

inductive ActionType
  | escalate
  | block
  | redirect
  | modifyResponse
deriving DecidableEq

structure RuleTrigger where
  keywords : List Str
  intent : Option Str
deriving DecidableEq

structure RuleAction where
  type : ActionType
  reason : Option Str
  tag : Option Str
  targetAgent : Option Str
deriving DecidableEq

structure MASUpdateRule where
  id : Str
  prompt : Str
  trigger : RuleTrigger
  action : RuleAction
  createdAt : Str
  active : Bool
deriving DecidableEq

/-! ### `parsePrompt` -/

/-- The stop words stripped from a trigger-pattern capture:
`/their|the|a|an|order|subscription/g`. -/
def patternStop : List Str :=
  ["their".data, "the".data, "a".data, "an".data, "order".data, "subscription".data]

/-- The contraction stop word spelled d, o, n, apostrophe, t. -/
def dontWord : Str := ['d', 'o', 'n', apos, 't']

/-- The stop words of the fallback tokenizer (if, when, do not, the
apostrophe contraction, should, must, always, never, the, a, an). -/
def fallbackStop : List Str :=
  ["if".data, "when".data, "do not".data, dontWord, "should".data, "must".data,
   "always".data, "never".data, "the".data, "a".data, "an".data]

/-- Keyword extraction from a trigger-pattern capture: lowercase the capture,
strip the pattern stop words, trim, split on whitespace runs, and keep the
tokens longer than 2 characters. -/
def extractWords (cap : Str) : List Str :=
  ((splitSep Char.isWhitespace
      (trimStr (replaceAll patternStop (lowerStr cap)))).filter
    fun w => decide (2 < w.length))

/-- The fallback tokenizer: strip the fallback stop words from the lowercased
prompt, split on runs of characters outside `a`..`z`, keep tokens longer than
3 characters, and take at most the first three. -/
def fallbackKeywords (promptLower : Str) : List Str :=
  (((splitSep (fun c => !isLowerAZ c) (replaceAll fallbackStop promptLower)).filter
    fun w => decide (3 < w.length)).take 3)

/-- The trigger-keyword computation of `parsePrompt`: try the three patterns
in order (the loop breaks on the first match); if the result is empty, fall
back to tokenizing the whole prompt. -/
def triggerKeywordsOf (prompt : Str) : List Str :=
  let fromPattern :=
    match matchPat1 prompt with
    | some cap => extractWords cap
    | none =>
      match matchPat2 prompt with
      | some cap => extractWords cap
      | none =>
        match matchPat3 prompt with
        | some cap => extractWords cap
        | none => []
  if fromPattern.isEmpty then fallbackKeywords (lowerStr prompt) else fromPattern

/-- The action-type/reason classification of `parsePrompt`: defaults, then the
escalate family, then the block family (overriding), then the redirect family
(overriding the type but not the reason). -/
def classifyAction (promptLower : Str) : ActionType × Str :=
  let tr : ActionType × Str := (ActionType.escalate, "Dynamic rule triggered".data)
  let tr :=
    if strIncludes promptLower "escalate".data || strIncludes promptLower "needs_attention".data
    then (ActionType.escalate, "Requires manual review per dynamic rule".data) else tr
  let tr :=
    if strIncludes promptLower "do not".data || strIncludes promptLower dontWord ||
       strIncludes promptLower "block".data
    then (ActionType.block, "Action blocked by dynamic rule".data) else tr
  let tr :=
    if strIncludes promptLower "redirect".data || strIncludes promptLower "route to".data
    then (ActionType.redirect, tr.2) else tr
  tr

/-- The tag extraction of `parsePrompt`: `tagMatch[1].toUpperCase()` when the
`mark as` regex matches. -/
def tagOf (prompt : Str) : Option Str := (matchMarkTag prompt).map upperStr

/-- Embedding of `DynamicRuleStore.parsePrompt`.  `ruleId` and `createdAt` stand for the
environment-dependent generated rule id (from the clock and a random suffix)
and the creation timestamp.  The body of the source always reaches its final
return of a rule object, so the result here is always `some`, despite the
declared nullable return type. -/
def parsePrompt (ruleId createdAt : Str) (prompt : Str) : Option MASUpdateRule :=
  let promptLower := lowerStr prompt
  let act := classifyAction promptLower
  some
    { id := ruleId
      prompt := prompt
      trigger := { keywords := triggerKeywordsOf prompt, intent := none }
      action := { type := act.1, reason := some act.2, tag := tagOf prompt, targetAgent := none }
      createdAt := createdAt
      active := true }

/-! ### The rule store operations -/

/-- Embedding of `DynamicRuleStore.addRule`: parse, and push onto the store when the parse
is non-null; returns the new store and the value returned to the caller. -/
def addRule (store : List MASUpdateRule) (ruleId createdAt prompt : Str) :
    List MASUpdateRule × Option MASUpdateRule :=
  match parsePrompt ruleId createdAt prompt with
  | some rule => (store ++ [rule], some rule)
  | none => (store, none)

/-- The per-rule test of `DynamicRuleStore.checkMessage`: the rule is active
and `rule.trigger.keywords.filter(kw => msgLower.includes(kw))` is nonempty. -/
def ruleHits (msgLower : Str) (rule : MASUpdateRule) : Bool :=
  rule.active && !(rule.trigger.keywords.filter fun kw => strIncludes msgLower kw).isEmpty

/-- Embedding of `DynamicRuleStore.checkMessage`: lowercase the message, return the first
rule in store order that is active and has a keyword hit, else null. -/
def checkMessage (store : List MASUpdateRule) (message : Str) : Option MASUpdateRule :=
  store.find? (ruleHits (lowerStr message))

/-- Embedding of `DynamicRuleStore.getRules`: returns (a copy of) the rule list. -/
def getRules (store : List MASUpdateRule) : List MASUpdateRule := store

/-- Embedding of `DynamicRuleStore.deactivateRule`: find the first rule with the given id,
set its `active` flag to false in place, and report whether one was found. -/
def deactivateRule : List MASUpdateRule → Str → List MASUpdateRule × Bool
  | [], _ => ([], false)
  | r :: rs, rid =>
    if r.id = rid then ({ r with active := false } :: rs, true)
    else
      let p := deactivateRule rs rid
      (r :: p.1, p.2)

/-- The result shape of `applyDynamicRules`. -/
structure ApplyResult where
  blocked : Bool
  escalate : Bool
  tag : Option Str
  reason : Option Str
  rule : Option MASUpdateRule
deriving DecidableEq

/-- Embedding of `applyDynamicRules`: consult `checkMessage`; on no match return
`{ blocked: false, escalate: false }`, otherwise derive the flags from the
matched rule's action type. -/
def applyDynamicRules (store : List MASUpdateRule) (message : Str) : ApplyResult :=
  match checkMessage store message with
  | none => { blocked := false, escalate := false, tag := none, reason := none, rule := none }
  | some matchedRule =>
    { blocked := matchedRule.action.type == ActionType.block
      escalate := matchedRule.action.type == ActionType.escalate
      tag := matchedRule.action.tag
      reason := matchedRule.action.reason
      rule := some matchedRule }

/-! ### Concrete rules used in the scenario claims -/

/-- Rule R1 of the order-stability scenario: trigger keyword set with only
the keyword address. -/
def exRule1 : MASUpdateRule :=
  { id := "r1".data
    prompt := "r1 prompt".data
    trigger := { keywords := ["address".data], intent := none }
    action := { type := ActionType.escalate, reason := none, tag := none, targetAgent := none }
    createdAt := "t1".data
    active := true }

/-- Rule R2 of the order-stability scenario: trigger keywords address and
update. -/
def exRule2 : MASUpdateRule :=
  { id := "r2".data
    prompt := "r2 prompt".data
    trigger := { keywords := ["address".data, "update".data], intent := none }
    action := { type := ActionType.escalate, reason := none, tag := none, targetAgent := none }
    createdAt := "t2".data
    active := true }

/-- An active rule whose trigger keyword set is empty. -/
def emptyKeywordRule : MASUpdateRule :=
  { id := "r0".data
    prompt := "r0 prompt".data
    trigger := { keywords := [], intent := none }
    action := { type := ActionType.escalate, reason := none, tag := none, targetAgent := none }
    createdAt := "t0".data
    active := true }

/-! ### Helper lemmas -/

/-- Unfolding of the per-rule test of `checkMessage`: a rule hits iff it is
active and some trigger keyword occurs in the lowercased message. -/
theorem ruleHits_iff (msgLower : Str) (r : MASUpdateRule) :
    ruleHits msgLower r = true ↔
      r.active = true ∧ ∃ kw ∈ r.trigger.keywords, strIncludes msgLower kw = true := by
  rw [ruleHits, Bool.and_eq_true]
  constructor
  · rintro ⟨ha, hne⟩
    refine ⟨ha, ?_⟩
    rw [Bool.not_eq_true'] at hne
    have h2 : (r.trigger.keywords.filter fun kw => strIncludes msgLower kw) ≠ [] := by
      intro hnil
      rw [hnil] at hne
      simp at hne
    obtain ⟨kw, hkw⟩ := List.exists_mem_of_ne_nil _ h2
    have := List.mem_filter.mp hkw
    exact ⟨kw, this.1, this.2⟩
  · rintro ⟨ha, kw, hkw, hinc⟩
    refine ⟨ha, ?_⟩
    have hne : (r.trigger.keywords.filter fun kw => strIncludes msgLower kw) ≠ [] :=
      List.ne_nil_of_mem (List.mem_filter.mpr ⟨hkw, hinc⟩)
    rw [Bool.not_eq_true']
    cases hfe : (r.trigger.keywords.filter fun kw => strIncludes msgLower kw).isEmpty
    · rfl
    · exact absurd (List.isEmpty_iff.mp hfe) hne

/-- First-match behaviour of `List.find?`. -/
theorem find?_first {α : Type} (p : α → Bool) (pre post : List α) (r : α)
    (hpre : ∀ x ∈ pre, p x = false) (hr : p r = true) :
    (pre ++ r :: post).find? p = some r := by
  induction pre with
  | nil => simpa [List.find?_cons] using List.find?_cons_of_pos post hr
  | cons a t ih =>
    have ha : p a = false := hpre a (by simp)
    rw [List.cons_append, List.find?_cons_of_neg _ (by simp [ha])]
    exact ih fun x hx => hpre x (by simp [hx])

/-- A `checkMessage` result is always an active rule. -/
theorem checkMessage_active (store : List MASUpdateRule) (m : Str) (r : MASUpdateRule)
    (h : checkMessage store m = some r) : r.active = true := by
  rw [checkMessage] at h
  have := List.find?_some h
  exact ((ruleHits_iff (lowerStr m) r).mp this).1

/-- Membership in a take that stays within the `takeWhile` region satisfies
the class. -/
theorem take_takeWhile_mem (cls : Char → Bool) :
    ∀ (l : Str) (j : Nat), j ≤ (l.takeWhile cls).length → ∀ c ∈ l.take j, cls c = true := by
  intro l
  induction l with
  | nil => intro j hj c hc; simp at hc
  | cons a t ih =>
    intro j hj c hc
    cases j with
    | zero => simp at hc
    | succ j' =>
      by_cases ha : cls a
      · rw [List.takeWhile_cons, if_pos ha] at hj
        rw [List.take_succ_cons] at hc
        rcases List.mem_cons.mp hc with rfl | hc'
        · exact ha
        · exact ih j' (Nat.le_of_succ_le_succ (by simpa using hj)) c hc'
      · rw [List.takeWhile_cons, if_neg ha] at hj
        simp at hj

/-- Characters of a class capture all satisfy the class, and the capture is
nonempty. -/
theorem mCapClass_sound (cls : Char → Bool) (l : Str) (pr : Str × Str)
    (h : pr ∈ mCapClass cls l) : pr.1 ≠ [] ∧ ∀ c ∈ pr.1, cls c = true := by
  rw [mCapClass] at h
  simp only [List.mem_map, List.mem_range] at h
  obtain ⟨i, hik, hpr⟩ := h
  subst hpr
  have hkl : (l.takeWhile cls).length ≤ l.length := (List.takeWhile_sublist cls).length_le
  constructor
  · show l.take ((l.takeWhile cls).length - i) ≠ []
    intro hnil
    have hlen := congrArg List.length hnil
    rw [List.length_take] at hlen
    simp only [List.length_nil] at hlen
    rcases Nat.min_eq_zero_iff.mp hlen with h0 | h0 <;> omega
  · intro c hc
    have hc' : c ∈ l.take ((l.takeWhile cls).length - i) := hc
    exact take_takeWhile_mem cls l _ (Nat.sub_le _ _) c hc'

/-- Each capture candidate produced by `capturesAt` is a nonempty run of
class characters. -/
theorem capturesAt_sound (pre : Matcher) (cls : Char → Bool) (post : Matcher) (l cap : Str)
    (h : cap ∈ capturesAt pre cls post l) : cap ≠ [] ∧ ∀ c ∈ cap, cls c = true := by
  rw [capturesAt] at h
  simp only [List.mem_flatMap, List.mem_filterMap] at h
  obtain ⟨r₁, _, pr, hpr, hif⟩ := h
  have hcap : pr.1 = cap := by
    by_cases hpost : (post pr.2).isEmpty
    · rw [if_pos hpost] at hif; cases hif
    · rw [if_neg hpost] at hif; exact Option.some.inj hif
  rw [← hcap]
  exact mCapClass_sound cls r₁ pr hpr

/-- A successful `findMatch` capture comes from some start position. -/
theorem findMatch_some_mem (f : Str → List Str) :
    ∀ (l cap : Str), findMatch f l = some cap → ∃ l', cap ∈ f l' := by
  intro l
  induction l with
  | nil =>
    intro cap h
    rw [findMatch] at h
    exact ⟨[], List.mem_of_mem_head? (by simp [h])⟩
  | cons c t ih =>
    intro cap h
    rw [findMatch] at h
    cases hh : (f (c :: t)).head? with
    | some cap' =>
      rw [hh] at h
      cases h
      exact ⟨c :: t, List.mem_of_mem_head? (by simp [hh])⟩
    | none =>
      rw [hh] at h
      exact ih cap h

/-- A successful tag match is a nonempty run of tag characters. -/
theorem matchMarkTag_sound (p s : Str) (h : matchMarkTag p = some s) :
    s ≠ [] ∧ ∀ c ∈ s, tagChar c = true := by
  rw [matchMarkTag] at h
  obtain ⟨l', hl'⟩ := findMatch_some_mem _ p s h
  exact capturesAt_sound _ _ _ _ _ hl'

/-- The second component of `deactivateRule` reports whether a rule with the
given id is present. -/
theorem deactivateRule_snd_iff (store : List MASUpdateRule) (rid : Str) :
    (deactivateRule store rid).2 = true ↔ ∃ r ∈ store, r.id = rid := by
  induction store with
  | nil => simp [deactivateRule]
  | cons a t ih =>
    by_cases h : a.id = rid
    · simp [deactivateRule, h]
    · simp [deactivateRule, h, ih]

/-- When no rule has the given id, `deactivateRule` leaves the store unchanged
and reports failure. -/
theorem deactivateRule_not_found (store : List MASUpdateRule) (rid : Str)
    (h : ∀ r ∈ store, r.id ≠ rid) : deactivateRule store rid = (store, false) := by
  induction store with
  | nil => rfl
  | cons a t ih =>
    have ha := h a (by simp)
    have ht := ih fun r hr => h r (by simp [hr])
    simp [deactivateRule, ha, ht]

/-- On the first rule carrying the given id, `deactivateRule` flips only that
rule's active flag and keeps every other rule (and the order) intact. -/
theorem deactivateRule_found (pre : List MASUpdateRule) (r : MASUpdateRule)
    (post : List MASUpdateRule) (rid : Str)
    (hpre : ∀ r' ∈ pre, r'.id ≠ rid) (hr : r.id = rid) :
    deactivateRule (pre ++ r :: post) rid =
      (pre ++ { r with active := false } :: post, true) := by
  induction pre with
  | nil => simp [deactivateRule, hr]
  | cons a t ih =>
    have ha := hpre a (by simp)
    have ht := ih fun x hx => hpre x (by simp [hx])
    simp [deactivateRule, ha, ht]

/-! ### The claims -/

/-- Claim C1: `checkMessage` lowercases the message and returns the first rule
in store (insertion) order that is active and has at least one trigger keyword
occurring as a substring of the lowercased message, and returns none when no
active rule has a keyword hit; in particular, with rules R1 (keyword set
holding only address) and R2 (keyword set holding address and update) added in
that order, the message, update my address, returns R1. -/
theorem checkMessage_first_match_spec :
    (∀ store m r, checkMessage store m = some r →
        r ∈ store ∧ r.active = true ∧
        ∃ kw ∈ r.trigger.keywords, strIncludes (lowerStr m) kw = true) ∧
    (∀ store m, checkMessage store m = none →
        ∀ r ∈ store, r.active = true →
          ∀ kw ∈ r.trigger.keywords, strIncludes (lowerStr m) kw = false) ∧
    (∀ pre r post m,
        (∀ r' ∈ pre, ruleHits (lowerStr m) r' = false) → ruleHits (lowerStr m) r = true →
        checkMessage (pre ++ r :: post) m = some r) ∧
    checkMessage [exRule1, exRule2] "update my address".data = some exRule1 ∧
    checkMessage [exRule1, exRule2] "Update MY Address".data = some exRule1 := by
  refine ⟨?_, ?_, ?_, by decide, by decide⟩
  · intro store m r h
    rw [checkMessage] at h
    have hp := List.find?_some h
    have hm := List.mem_of_find?_eq_some h
    have hi := (ruleHits_iff (lowerStr m) r).mp hp
    exact ⟨hm, hi.1, hi.2⟩
  · intro store m h r hr hact kw hkw
    rw [checkMessage, List.find?_eq_none] at h
    have hnr := h r hr
    cases hn : strIncludes (lowerStr m) kw
    · rfl
    · exact absurd ((ruleHits_iff (lowerStr m) r).mpr ⟨hact, kw, hkw, hn⟩) hnr
  · intro pre r post m hpre hr
    rw [checkMessage]
    exact find?_first _ pre post r hpre hr

/-- Claim C2 (behaviour at the failing input): on the prompt hi, none of the
three trigger patterns matches and the fallback tokenizer yields no keywords,
yet `addRule` stores the rule with an empty trigger keyword set and
`active = true` and returns it to the caller instead of rejecting it. -/
theorem addRule_stores_empty_keyword_rule :
    matchPat1 "hi".data = none ∧ matchPat2 "hi".data = none ∧ matchPat3 "hi".data = none ∧
    fallbackKeywords (lowerStr "hi".data) = [] ∧
    ∃ r, addRule [] "id1".data "t1".data "hi".data = ([r], some r) ∧
      r.trigger.keywords = [] ∧ r.active = true :=
  ⟨by decide, by decide, by decide, rfl, ⟨_, rfl, rfl, rfl⟩⟩

/-- The prompt of the C3 counterexample, containing an escalate-family, a
block-family and a redirect-family phrase at once. -/
def c3Prompt : Str := "escalate and block and redirect".data

/-- Claim C3 counterexample: a prompt whose lowercased text contains both an
escalate-family and a block-family phrase, for which `parsePrompt`
nevertheless classifies the action type as REDIRECT, not BLOCK, because the
redirect check runs last. -/
theorem classify_block_loses_to_redirect :
    strIncludes (lowerStr c3Prompt) "escalate".data = true ∧
    strIncludes (lowerStr c3Prompt) "block".data = true ∧
    ((parsePrompt "id1".data "t1".data c3Prompt).map fun r => r.action.type) =
      some ActionType.redirect ∧
    ((parsePrompt "id1".data "t1".data c3Prompt).map fun r => r.action.type) ≠
      some ActionType.block :=
  ⟨by decide, by decide, rfl, by decide⟩

/-- Claim C3 (amended): for every prompt whose lowercased text contains both
an escalate-family phrase (escalate or needs_attention) and a block-family
phrase (do not, the apostrophe contraction, or block) and none of the
redirect-family phrases (redirect, route to), `parsePrompt` classifies the
action type as BLOCK. -/
theorem classify_block_wins_without_redirect (p ruleId createdAt : Str)
    (_hesc : strIncludes (lowerStr p) "escalate".data = true ∨
        strIncludes (lowerStr p) "needs_attention".data = true)
    (hblk : strIncludes (lowerStr p) "do not".data = true ∨
        strIncludes (lowerStr p) dontWord = true ∨
        strIncludes (lowerStr p) "block".data = true)
    (hnr : strIncludes (lowerStr p) "redirect".data = false)
    (hnrt : strIncludes (lowerStr p) "route to".data = false)
    (r : MASUpdateRule) (hr : parsePrompt ruleId createdAt p = some r) :
    r.action.type = ActionType.block := by
  have hty : r.action.type = (classifyAction (lowerStr p)).1 := by
    simp only [parsePrompt, Option.some.injEq] at hr
    subst hr
    rfl
  rw [hty, classifyAction]
  simp only [hnr, hnrt, Bool.or_self, Bool.or_false, if_false]
  rcases hblk with h | h | h <;> simp [h]

/-- The witness prompt for the amended claim C3. -/
def c3WitnessPrompt : Str := "escalate and block this".data

/-- Witness for the amended claim C3 at a concrete prompt. -/
theorem classify_block_wins_without_redirect_witness :
    ∃ r, parsePrompt "id1".data "t1".data c3WitnessPrompt = some r ∧
      r.action.type = ActionType.block := by
  obtain ⟨r, hr⟩ : ∃ r, parsePrompt "id1".data "t1".data c3WitnessPrompt = some r := ⟨_, rfl⟩
  exact ⟨r, hr, classify_block_wins_without_redirect c3WitnessPrompt "id1".data "t1".data
    (Or.inl (by decide)) (Or.inr (Or.inr (by decide))) (by decide) (by decide) r hr⟩

/-- The prompt of the block-refund scenario. -/
def c4Prompt : Str := "Block all refund requests over $500".data

/-- The follow-up message of the block-refund scenario. -/
def c4Message : Str := "I want a refund".data

/-- Claim C4: adding the rule prompt, Block all refund requests over 500
dollars, stores a rule whose action type is BLOCK; the later message, I want a
refund, matches that rule on the keyword refund, and `applyDynamicRules`
returns blocked = true for it. -/
theorem block_refund_scenario :
    ∃ r, addRule [] "id1".data "t1".data c4Prompt = ([r], some r) ∧
      r.action.type = ActionType.block ∧
      "refund".data ∈ r.trigger.keywords ∧
      strIncludes (lowerStr c4Message) "refund".data = true ∧
      checkMessage [r] c4Message = some r ∧
      (applyDynamicRules [r] c4Message).blocked = true :=
  ⟨_, rfl, rfl, by decide, by decide, by decide, by decide⟩

/-- Claim C5: when none of the three trigger patterns matches the prompt, the
trigger keywords come from the fallback tokenizer, so there are at most three
of them and each is strictly longer than 3 characters. -/
theorem fallback_keywords_bounded (p ruleId createdAt : Str)
    (h1 : matchPat1 p = none) (h2 : matchPat2 p = none) (h3 : matchPat3 p = none)
    (r : MASUpdateRule) (hr : parsePrompt ruleId createdAt p = some r) :
    r.trigger.keywords = fallbackKeywords (lowerStr p) ∧
    r.trigger.keywords.length ≤ 3 ∧
    ∀ kw ∈ r.trigger.keywords, 3 < kw.length := by
  have hk : r.trigger.keywords = triggerKeywordsOf p := by
    simp only [parsePrompt, Option.some.injEq] at hr
    subst hr
    rfl
  have ht : triggerKeywordsOf p = fallbackKeywords (lowerStr p) := by
    rw [triggerKeywordsOf, h1, h2, h3]
    rfl
  have hkw := hk.trans ht
  refine ⟨hkw, ?_, ?_⟩
  · rw [hkw, fallbackKeywords, List.length_take]
    exact Nat.min_le_left _ _
  · intro kw hmem
    rw [hkw, fallbackKeywords] at hmem
    have hf := List.take_subset 3 _ hmem
    have hp := (List.mem_filter.mp hf).2
    simpa using hp

/-- The witness prompt for claim C5. -/
def c5WitnessPrompt : Str := "spam filtering".data

/-- Witness for claim C5 at a concrete prompt matched by no trigger pattern. -/
theorem fallback_keywords_bounded_witness :
    (matchPat1 c5WitnessPrompt = none ∧ matchPat2 c5WitnessPrompt = none ∧
      matchPat3 c5WitnessPrompt = none) ∧
    ∃ r, parsePrompt "id1".data "t1".data c5WitnessPrompt = some r ∧
      (r.trigger.keywords = fallbackKeywords (lowerStr c5WitnessPrompt) ∧
        r.trigger.keywords.length ≤ 3 ∧
        ∀ kw ∈ r.trigger.keywords, 3 < kw.length) := by
  obtain ⟨r, hr⟩ : ∃ r, parsePrompt "id1".data "t1".data c5WitnessPrompt = some r := ⟨_, rfl⟩
  exact ⟨⟨by decide, by decide, by decide⟩, r, hr,
    fallback_keywords_bounded c5WitnessPrompt "id1".data "t1".data
      (by decide) (by decide) (by decide) r hr⟩

/-- Claim C6: `deactivateRule` succeeds exactly when a rule with the id is in
the store; on failure nothing changes; on success it is a soft delete that
flips only the first matching rule's active flag, keeping all rules (so the
rule still appears in `getRules`); and `checkMessage` never returns an
inactive rule, so a deactivated rule is never matched again. -/
theorem deactivateRule_soft_delete :
    (∀ store rid, (deactivateRule store rid).2 = true ↔ ∃ r ∈ store, r.id = rid) ∧
    (∀ store rid, (∀ r ∈ store, r.id ≠ rid) → deactivateRule store rid = (store, false)) ∧
    (∀ pre r post rid, (∀ r' ∈ pre, r'.id ≠ rid) → r.id = rid →
        deactivateRule (pre ++ r :: post) rid =
          (pre ++ { r with active := false } :: post, true)) ∧
    (∀ pre r post rid, (∀ r' ∈ pre, r'.id ≠ rid) → r.id = rid →
        { r with active := false } ∈ getRules (deactivateRule (pre ++ r :: post) rid).1) ∧
    (∀ store m r, checkMessage store m = some r → r.active = true) :=
  ⟨deactivateRule_snd_iff,
   deactivateRule_not_found,
   deactivateRule_found,
   fun pre r post rid hpre hr => by
     rw [deactivateRule_found pre r post rid hpre hr]
     exact List.mem_append_right pre (List.mem_cons_self _ _),
   checkMessage_active⟩

/-- Claim C7: whenever the tag regex matches the prompt, the captured text is
a nonempty run of letters and underscores and the parsed rule's action tag is
that capture converted to uppercase; when the regex does not match, the action
tag is absent. -/
theorem parsePrompt_tag_spec (p ruleId createdAt : Str) (r : MASUpdateRule)
    (hr : parsePrompt ruleId createdAt p = some r) :
    (∀ s, matchMarkTag p = some s →
        s ≠ [] ∧ (∀ c ∈ s, (c.isAlpha || c == '_') = true) ∧
        r.action.tag = some (upperStr s)) ∧
    (matchMarkTag p = none → r.action.tag = none) := by
  have htag : r.action.tag = tagOf p := by
    simp only [parsePrompt, Option.some.injEq] at hr
    subst hr
    rfl
  constructor
  · intro s hs
    obtain ⟨hne, hcls⟩ := matchMarkTag_sound p s hs
    exact ⟨hne, fun c hc => hcls c hc, by rw [htag, tagOf, hs]; rfl⟩
  · intro hs
    rw [htag, tagOf, hs]
    rfl

/-- The witness prompt for claim C7. -/
def c7WitnessPrompt : Str := "mark as VIP and escalate".data

/-- Witness for claim C7 at a concrete prompt with a mark-as phrase. -/
theorem parsePrompt_tag_spec_witness :
    matchMarkTag c7WitnessPrompt = some "VIP".data ∧
    ∃ r, parsePrompt "id1".data "t1".data c7WitnessPrompt = some r ∧
      r.action.tag = some (upperStr "VIP".data) := by
  obtain ⟨r, hr⟩ : ∃ r, parsePrompt "id1".data "t1".data c7WitnessPrompt = some r := ⟨_, rfl⟩
  exact ⟨by decide, r, hr,
    ((parsePrompt_tag_spec c7WitnessPrompt "id1".data "t1".data r hr).1
      "VIP".data (by decide)).2.2⟩

/-- Claim C8: the result of `applyDynamicRules` never has blocked and escalate
set at the same time, for every store state and every message. -/
theorem applyDynamicRules_flags_exclusive (store : List MASUpdateRule) (m : Str) :
    ((applyDynamicRules store m).blocked && (applyDynamicRules store m).escalate) = false := by
  rw [applyDynamicRules]
  cases h : checkMessage store m with
  | none => rfl
  | some r =>
    show ((r.action.type == ActionType.block) && (r.action.type == ActionType.escalate)) = false
    generalize r.action.type = ty
    cases ty <;> rfl

/-- Claim C9: a stored rule with an empty trigger keyword set is never
returned by `checkMessage`, and in particular an active empty-keyword rule
matches no message at all. -/
theorem checkMessage_empty_keywords_never_match :
    (∀ store m r, checkMessage store m = some r → r.trigger.keywords ≠ []) ∧
    (∀ m, checkMessage [emptyKeywordRule] m = none) := by
  constructor
  · intro store m r h hk
    rw [checkMessage] at h
    have hp := List.find?_some h
    rw [ruleHits, hk] at hp
    simp at hp
  · intro m
    rfl

/-- Claim C10: when no active rule of the store has a keyword occurring in the
lowercased message, `applyDynamicRules` returns exactly the default result:
blocked and escalate false, tag, reason and rule all absent. -/
theorem applyDynamicRules_no_hit_default (store : List MASUpdateRule) (m : Str)
    (h : ∀ r ∈ store, r.active = true →
        ∀ kw ∈ r.trigger.keywords, strIncludes (lowerStr m) kw = false) :
    applyDynamicRules store m =
      { blocked := false, escalate := false, tag := none, reason := none, rule := none } := by
  have hcm : checkMessage store m = none := by
    rw [checkMessage, List.find?_eq_none]
    intro r hr hp
    obtain ⟨hact, kw, hkw, hinc⟩ := (ruleHits_iff (lowerStr m) r).mp hp
    rw [h r hr hact kw hkw] at hinc
    cases hinc
  rw [applyDynamicRules, hcm]

/-- Witness for claim C10: a store with one active rule none of whose keywords
occurs in the message. -/
theorem applyDynamicRules_no_hit_default_witness :
    applyDynamicRules [exRule1] "hello".data =
      { blocked := false, escalate := false, tag := none, reason := none, rule := none } :=
  applyDynamicRules_no_hit_default [exRule1] "hello".data (by decide)

end MASUpdate
